import Mathlib

/-!
# Verification of the fuhlen-d90s battery monitor

Shallow embedding of `src/fuhlen-monitor.py`: the raw-byte scaling of
`read_battery`, the smoothing/write-dedup routine `update_output`, the
probe-result debounce handling and startup seeding of `main`, and the
adaptive scheduling decision of `main`'s tick loop.  Timestamps and
durations are modelled as rationals (the Python floats are only compared
against small integer thresholds); battery values are integers; the two
persisted status files are modelled as their last written contents.
-/

/-- Seconds of idle time before the light-sleep read window opens. -/
def IDLE_THRESHOLD_LIGHT : ℚ := 30

/-- Seconds of idle time at which reading stops (deep sleep). -/
def IDLE_THRESHOLD_DEEP : ℚ := 150

/-- Seconds after which a read is forced while continuously active. -/
def FORCE_READ_INTERVAL : ℚ := 900

/-- Minimum seconds between reads in the light-sleep window. -/
def MIN_READ_INTERVAL : ℚ := 300

/-- Consecutive failures before showing N/A. -/
def NA_DEBOUNCE_COUNT : Nat := 3

/-- History capacity used by every call of `update_output` (`max_history=5`). -/
def MAX_HISTORY : Nat := 5

/-- Round-half-to-even of the rational `s / n` (with `n > 0`), exactly the
value of Python's `round(s / n)`: for the sums (`|s| ≤ 510`) and lengths
(`n ≤ 5`) reachable here the float division either is exact or sits at
distance ≥ 1/(2n) from the nearest half-integer, so binary rounding error
never changes the result. -/
def roundHalfEven (s : Int) (n : Nat) : Int :=
  let q := s.fdiv n
  let r := s.fmod n
  if 2 * r < (n : Int) then q
  else if (n : Int) < 2 * r then q + 1
  else if q % 2 = 0 then q else q + 1

/-- Python `int(round(sum(history) / len(history)))` (meaningful only for
nonempty `history`; `update_output` guards every use with a nonemptiness
check). The outer `int(...)` is the identity since `round` already yields
an integer. -/
def roundMean (history : List Int) : Int :=
  roundHalfEven history.sum history.length

/-- The plain-text token: Python `f"{final_bat}%" if final_bat is not None
else "N/A"` (src line 153). -/
def renderToken : Option Int → String
  | some n => toString n ++ "%"
  | none => "N/A"

/-- The structured record `{"percentage": final_bat if final_bat is not None
else 0, "is_present": final_bat is not None}` (src line 173). -/
def jsonOf : Option Int → Int × Bool
  | some n => (n, true)
  | none => (0, false)

/-- The two persisted status files, as the contents last written to them
(`none` = file does not exist).  `plain` is `/tmp/fuhlen_battery`, `json`
is `/tmp/fuhlen_battery.json` decoded to (percentage, is_present). -/
structure Files where
  plain : Option String
  json : Option (Int × Bool)
deriving DecidableEq

/-- Result of one `update_output` call: the returned history, the computed
`final_bat`, whether the files were (re)written, and the resulting files. -/
structure UOResult where
  history : List Int
  final_bat : Option Int
  wrote : Bool
  files : Files
deriving DecidableEq

/-- Embeds `update_output(bat, history, max_history=5, na_counter=0)`
(src lines 131–179).  On a successful reading the value is appended and the
oldest entry popped once the length exceeds `max_history`; `final_bat` is
`round(mean(history))` of the (post-update) history when it is nonempty and
`None` otherwise — exactly the source's two branches, which both compute the
mean of the current history snapshot.  The plain file is reread and both
writes are skipped when its content already equals the new token; otherwise
both representations are overwritten.  (`na_counter` is unused in the
source.) -/
def update_output (bat : Option Int) (history : List Int) (fs : Files)
    (max_history : Nat) : UOResult :=
  let history := match bat with
    | some b =>
      let h := history ++ [b]
      if max_history < h.length then h.drop 1 else h
    | none => history
  let final_bat : Option Int :=
    if history.isEmpty then none else some (roundMean history)
  let current_text : String := renderToken final_bat
  let should_write : Bool := !(fs.plain == some current_text)
  let fs :=
    if should_write then
      { plain := some current_text, json := some (jsonOf final_bat) }
    else fs
  ⟨history, final_bat, should_write, fs⟩

/-- The monitor's mutable state threaded through `main`'s loop: the rolling
history, the consecutive-failure counter `na_failure_count`, and the
persisted files. -/
structure MonState where
  history : List Int
  na_failure_count : Nat
  files : Files
deriving DecidableEq

/-- Embeds the probe-result handling of `main` (src lines 285–303): on
failure the counter is incremented and, below the debounce threshold,
`update_output` is skipped entirely; at or above the threshold the history
is cleared and N/A published; on success the counter resets to 0 and the
reading is ingested via `update_output`. -/
def process_probe_result (bat : Option Int) (s : MonState) : MonState :=
  match bat with
  | none =>
    let na := s.na_failure_count + 1
    if na < NA_DEBOUNCE_COUNT then
      { s with na_failure_count := na }
    else
      let r := update_output none [] s.files MAX_HISTORY
      { history := [], na_failure_count := na, files := r.files }
  | some b =>
    let r := update_output (some b) s.history s.files MAX_HISTORY
    { history := r.history, na_failure_count := 0, files := r.files }

/-- Embeds the startup seeding block of `main` (src lines 187–198): if the
JSON file exists and `d.get('percentage') and d.get('is_present')` is truthy
(Python truthiness: percentage nonzero AND is_present true), the persisted
percentage is appended to the (empty) history and the plain file rewritten;
otherwise nothing changes. -/
def startup_seed (fs : Files) (history : List Int) : List Int × Files :=
  match fs.json with
  | none => (history, fs)
  | some (p, pres) =>
    if p ≠ 0 ∧ pres then
      (history ++ [p], { plain := some (toString p ++ "%"), json := fs.json })
    else
      (history, fs)

/-- The scaling computation of `read_battery` (src line 112):
Python `int((data[4] - 50) / 2)`.  `(data[4] - 50) / 2` is an exact float
(half-integer) and `int(...)` truncates toward zero, i.e. `Int.tdiv`. -/
def scale_raw (r : Nat) : Int := Int.tdiv ((r : Int) - 50) 2

/-- Frame validation and scaling of `read_battery`'s response loop
(src lines 110–113): a battery value is produced only when the frame is
nonempty and its first byte is the marker `0x05`; the raw sensor byte is
`data[4]`. -/
def read_battery_frame (data : List Nat) : Option Int :=
  match data.head? with
  | some d0 => if d0 = 0x05 then (data[4]?).map scale_raw else none
  | none => none

/-- Inputs of one scheduling decision (src lines 255–277): the sentinel
`last_read_time` (0 = never read), the derived `idle_time` and
`time_since_last_read`, and the device path/signature strings (`none`
models Python `None`). -/
structure SchedState where
  last_read_time : ℚ
  idle_time : ℚ
  time_since_last_read : ℚ
  event_path : Option String
  event_signature : Option String
  last_known_signature : Option String
deriving DecidableEq

/-- Python truthiness of an optional string: `None` and `""` are falsy. -/
def truthyStr : Option String → Bool
  | none => false
  | some s => !(s == "")

/-- Embeds the `should_read` decision of `main` (src lines 259–279):
rule A (startup / new connection) first, then the light-sleep window
(idle strictly between 30 and 150, read only if strictly more than 300 s
since the last read), then force-read while active (idle < 1 s, strictly
more than 900 s), else (deep sleep) no read.  The `elif` chain means a
failed inner interval test falls through to `False`, not to the next rule. -/
def should_read (st : SchedState) : Bool :=
  if st.last_read_time = 0 ∨
      (truthyStr st.event_path ∧ truthyStr st.event_signature ∧
        st.event_signature ≠ st.last_known_signature) then
    true
  else if IDLE_THRESHOLD_LIGHT < st.idle_time ∧
      st.idle_time < IDLE_THRESHOLD_DEEP then
    if MIN_READ_INTERVAL < st.time_since_last_read then true else false
  else if st.idle_time < 1 then
    if FORCE_READ_INTERVAL < st.time_since_last_read then true else false
  else
    false

/-- Files exactly as a completed `update_output` write leaves them: the two
representations of the same displayed value `v`, in lockstep. -/
def syncFiles (v : Option Int) : Files :=
  { plain := some (renderToken v), json := some (jsonOf v) }

/-- The persisted files either do not yet exist (plain file absent) or are a
lockstep pair as written by the monitor itself. -/
def FilesSync (fs : Files) : Prop := fs.plain = none ∨ ∃ v, fs = syncFiles v

/-! ### Basic unfolding lemmas for `update_output` -/

lemma update_output_success_history (b : Int) (hist : List Int) (fs : Files)
    (m : Nat) :
    (update_output (some b) hist fs m).history =
      if m < (hist ++ [b]).length then (hist ++ [b]).drop 1
      else hist ++ [b] := rfl

lemma update_output_failure_history (hist : List Int) (fs : Files) (m : Nat) :
    (update_output none hist fs m).history = hist := rfl

lemma update_output_final_bat (bat : Option Int) (hist : List Int) (fs : Files)
    (m : Nat) :
    (update_output bat hist fs m).final_bat =
      (if (update_output bat hist fs m).history.isEmpty then none
       else some (roundMean (update_output bat hist fs m).history)) := rfl

lemma update_output_wrote (bat : Option Int) (hist : List Int) (fs : Files)
    (m : Nat) :
    (update_output bat hist fs m).wrote =
      !(fs.plain == some (renderToken (update_output bat hist fs m).final_bat)) :=
  rfl

lemma update_output_files (bat : Option Int) (hist : List Int) (fs : Files)
    (m : Nat) :
    (update_output bat hist fs m).files =
      (if (update_output bat hist fs m).wrote
       then syncFiles (update_output bat hist fs m).final_bat
       else fs) := rfl

/-- After any `update_output` call the plain file holds exactly the token of
the value the call computed (either it was just written, or the write was
skipped because the file already held that very token). -/
lemma update_output_plain (bat : Option Int) (hist : List Int) (fs : Files)
    (m : Nat) :
    (update_output bat hist fs m).files.plain =
      some (renderToken (update_output bat hist fs m).final_bat) := by
  rw [update_output_files, update_output_wrote]
  cases hb : fs.plain == some (renderToken (update_output bat hist fs m).final_bat)
  · rfl
  · simpa using (beq_iff_eq.mp hb)

/-! ### Claim theorems: scheduling policy -/

/-- C4: whenever the device is located with a non-absent identity signature
different from the last known one — or no probe has ever been attempted
(`last_read_time == 0`) — a probe is scheduled on this tick, regardless of
the idle time and of the time since the last probe attempt. -/
theorem c4_new_connection_forces_read (st : SchedState)
    (h : st.last_read_time = 0 ∨
      (truthyStr st.event_path ∧ truthyStr st.event_signature ∧
        st.event_signature ≠ st.last_known_signature)) :
    should_read st = true := by
  unfold should_read
  rw [if_pos h]

theorem c4_witness :
    should_read ⟨5, 1000, 1, some "/dev/input/event3", some "B", some "A"⟩ =
      true :=
  c4_new_connection_forces_read _ (Or.inr (by decide))

/-- C5 counterexample: with the device located, a probe attempted before,
identity unchanged, idle time 100 s (strictly between 30 and 150) and
exactly 300 s since the last probe attempt — so "at least 300 s" holds —
the code schedules no probe: the guard is strict (`> 300`). -/
theorem c5_counterexample :
    MIN_READ_INTERVAL ≤ (300 : ℚ) ∧
    should_read ⟨5, 100, 300, some "/dev/input/event3", some "A", some "A"⟩ =
      false := by
  constructor
  · decide
  · decide

/-- C5 amended: with the device located, a probe attempted before, and the
identity unchanged, idle time strictly between 30 s and 150 s schedules a
probe if and only if STRICTLY MORE than 300 s have elapsed since the last
probe attempt (so with `time_since_last_read ≤ 300` no probe is scheduled). -/
theorem c5_light_sleep_read_iff (st : SchedState)
    (hlr : st.last_read_time ≠ 0)
    (hsig : st.event_signature = st.last_known_signature)
    (h30 : IDLE_THRESHOLD_LIGHT < st.idle_time)
    (h150 : st.idle_time < IDLE_THRESHOLD_DEEP) :
    should_read st = true ↔ MIN_READ_INTERVAL < st.time_since_last_read := by
  unfold should_read
  have hA : ¬ (st.last_read_time = 0 ∨
      (truthyStr st.event_path ∧ truthyStr st.event_signature ∧
        st.event_signature ≠ st.last_known_signature)) := by
    rintro (h0 | ⟨-, -, hne⟩)
    · exact hlr h0
    · exact hne hsig
  rw [if_neg hA, if_pos ⟨h30, h150⟩]
  by_cases hm : MIN_READ_INTERVAL < st.time_since_last_read <;> simp [hm]

theorem c5_witness :
    should_read ⟨5, 100, 301, some "/dev/input/event3", some "A", some "A"⟩ =
      true ↔ MIN_READ_INTERVAL < (301 : ℚ) :=
  c5_light_sleep_read_iff _ (by decide) rfl (by decide) (by decide)

/-- C6 counterexample: with the device located, a probe attempted before,
identity unchanged, idle time 0 s (actively in use) and exactly 900 s since
the last probe attempt — so "at least 900 s" holds — the code schedules no
probe: the guard is strict (`> 900`). -/
theorem c6_counterexample :
    FORCE_READ_INTERVAL ≤ (900 : ℚ) ∧
    should_read ⟨5, 0, 900, some "/dev/input/event3", some "A", some "A"⟩ =
      false := by
  constructor
  · decide
  · decide

/-- C6 amended: with the device located, a probe attempted before, and the
identity unchanged, idle time under 1 s schedules a probe if and only if
STRICTLY MORE than 900 s have elapsed since the last probe attempt (so with
`time_since_last_read ≤ 900` — in particular `< 900` — no probe is
scheduled). -/
theorem c6_force_read_iff (st : SchedState)
    (hlr : st.last_read_time ≠ 0)
    (hsig : st.event_signature = st.last_known_signature)
    (h1 : st.idle_time < 1) :
    should_read st = true ↔ FORCE_READ_INTERVAL < st.time_since_last_read := by
  unfold should_read
  have hA : ¬ (st.last_read_time = 0 ∨
      (truthyStr st.event_path ∧ truthyStr st.event_signature ∧
        st.event_signature ≠ st.last_known_signature)) := by
    rintro (h0 | ⟨-, -, hne⟩)
    · exact hlr h0
    · exact hne hsig
  have hB : ¬ (IDLE_THRESHOLD_LIGHT < st.idle_time ∧
      st.idle_time < IDLE_THRESHOLD_DEEP) := by
    rintro ⟨h30, -⟩
    have : (1 : ℚ) < 30 := by norm_num
    exact absurd (lt_trans h1 (lt_of_le_of_lt this.le h30)) (lt_irrefl _)
  rw [if_neg hA, if_neg hB, if_pos h1]
  by_cases hm : FORCE_READ_INTERVAL < st.time_since_last_read <;> simp [hm]

theorem c6_witness :
    should_read ⟨5, 0, 901, some "/dev/input/event3", some "A", some "A"⟩ =
      true ↔ FORCE_READ_INTERVAL < (901 : ℚ) :=
  c6_force_read_iff _ (by decide) rfl (by decide)

/-! ### Claim theorems: probe scaling -/

/-- C7 counterexample: a valid frame (marker byte `0x05`) with raw sensor
byte 49 yields battery value `int((49-50)/2) = 0` in the code, whereas
`floor((49-50)/2) = -1`: Python `int()` truncates toward zero, which is not
the floor for negative intermediate values. -/
theorem c7_counterexample :
    ¬ (read_battery_frame [0x05, 0, 0, 0, 49] =
        some (Int.fdiv ((49 : Int) - 50) 2)) := by
  decide

/-- C7 amended: for every valid response frame carrying the marker byte with
raw sensor byte `r`, the computed battery percentage is the truncation
toward zero of `(r - 50) / 2`, which coincides with `floor((r - 50) / 2)`
whenever `r ≥ 50` (it differs exactly on the odd raw bytes below 50). -/
theorem c7_marker_frame_scaling (data : List Nat) (r : Nat)
    (hmark : data.head? = some 0x05) (hraw : data[4]? = some r)
    (h50 : 50 ≤ r) :
    read_battery_frame data = some (Int.fdiv ((r : Int) - 50) 2) := by
  have hs : scale_raw r = Int.fdiv ((r : Int) - 50) 2 := by
    unfold scale_raw
    rw [Int.fdiv_eq_tdiv (by omega) (by norm_num)]
  unfold read_battery_frame
  rw [hmark, hraw]
  simp [hs]

theorem c7_witness :
    read_battery_frame [0x05, 0, 0, 0, 51] =
      some (Int.fdiv ((51 : Int) - 50) 2) :=
  c7_marker_frame_scaling [0x05, 0, 0, 0, 51] 51 rfl rfl (by decide)

/-! ### Claim theorems: startup seeding -/

/-- C10: startup seeding requires `d.get('percentage')` to be truthy as well
as `is_present`, so a persisted record `{"percentage": 0, "is_present":
true}` seeds nothing: the history stays empty and the plain file is not
rewritten — a genuine persisted 0 % reading is silently not restored. -/
theorem c10_zero_percent_not_restored (fs : Files)
    (hjson : fs.json = some (0, true)) :
    startup_seed fs [] = ([], fs) := by
  obtain ⟨plain, json⟩ := fs
  have hj : json = some (0, true) := hjson
  subst hj
  simp [startup_seed]

theorem c10_witness :
    startup_seed ⟨some "0%", some (0, true)⟩ [] =
      ([], ⟨some "0%", some (0, true)⟩) :=
  c10_zero_percent_not_restored ⟨some "0%", some (0, true)⟩ rfl

/-! ### Claim theorems: smoothing and debounce -/

/-- C1: after every successful probe reading the value is appended to the
history (evicting the oldest entry once the length would exceed 5), the
failure counter is reset to 0, and the persisted plain token is the
rendered round-half-even mean of the current history. -/
theorem c1_success_updates_history_and_display (b : Int) (s : MonState) :
    (process_probe_result (some b) s).na_failure_count = 0 ∧
    (process_probe_result (some b) s).history =
      (if s.history.length < MAX_HISTORY then s.history ++ [b]
       else (s.history ++ [b]).drop 1) ∧
    (process_probe_result (some b) s).files.plain =
      some (renderToken (some (roundMean
        (process_probe_result (some b) s).history))) := by
  have hhist : (process_probe_result (some b) s).history =
      (update_output (some b) s.history s.files MAX_HISTORY).history := rfl
  have hne : ((update_output (some b) s.history s.files MAX_HISTORY).history).isEmpty
      = false := by
    rw [update_output_success_history]
    split
    · next hlt =>
      simp only [List.isEmpty_eq_false, ne_eq, List.drop_eq_nil_iff]
      simp only [List.length_append, List.length_singleton, MAX_HISTORY] at hlt ⊢
      omega
    · simp
  refine ⟨rfl, ?_, ?_⟩
  · rw [hhist, update_output_success_history]
    rcases Nat.lt_or_ge s.history.length MAX_HISTORY with hlt | hge
    · rw [if_neg (by
        simp only [List.length_append, List.length_singleton, MAX_HISTORY] at hlt ⊢
        omega), if_pos hlt]
    · rw [if_pos (by
        simp only [List.length_append, List.length_singleton, MAX_HISTORY] at hge ⊢
        omega), if_neg (by omega)]
  · rw [hhist]
    have hplain : (process_probe_result (some b) s).files.plain =
        (update_output (some b) s.history s.files MAX_HISTORY).files.plain := rfl
    rw [hplain, update_output_plain, update_output_final_bat, hne]
    rfl

/-- C2: a probe failure while the (incremented) consecutive-failure counter
is still below the debounce threshold 3 changes neither the history nor
either persisted status file; only the counter advances, so the previously
displayed value continues to be shown. -/
theorem c2_transient_failure_is_noop (s : MonState)
    (h : s.na_failure_count + 1 < NA_DEBOUNCE_COUNT) :
    (process_probe_result none s).history = s.history ∧
    (process_probe_result none s).files = s.files ∧
    (process_probe_result none s).na_failure_count = s.na_failure_count + 1 := by
  unfold process_probe_result
  rw [if_pos h]
  exact ⟨rfl, rfl, rfl⟩

theorem c2_witness :
    (process_probe_result none ⟨[40], 0, ⟨some "40%", some (40, true)⟩⟩).history
        = [40] ∧
    (process_probe_result none ⟨[40], 0, ⟨some "40%", some (40, true)⟩⟩).files
        = ⟨some "40%", some (40, true)⟩ ∧
    (process_probe_result none
        ⟨[40], 0, ⟨some "40%", some (40, true)⟩⟩).na_failure_count = 0 + 1 :=
  c2_transient_failure_is_noop ⟨[40], 0, ⟨some "40%", some (40, true)⟩⟩
    (by decide)

/-- A percentage token can never be the string `"N/A"`. -/
lemma append_pct_ne_na (s : String) : s ++ "%" ≠ "N/A" := by
  intro h
  have hd : s.data ++ ['%'] = ['N', '/', 'A'] := by
    have := congrArg String.data h
    simpa using this
  have h1 : (s.data ++ ['%']).getLast? = some '%' := List.getLast?_concat _
  have h2 : (['N', '/', 'A'] : List Char).getLast? = some 'A' := rfl
  rw [hd, h2] at h1
  exact absurd (Option.some.inj h1) (by decide)

lemma update_output_na_final_bat (fs : Files) :
    (update_output none [] fs MAX_HISTORY).final_bat = none := rfl

/-- Publishing N/A over an empty history leaves the files as the lockstep
absent pair, whether the previous files were absent, an absent pair already,
or a lockstep percentage pair. -/
lemma update_output_na_files (fs : Files) (hfs : FilesSync fs) :
    (update_output none [] fs MAX_HISTORY).files = syncFiles none := by
  rw [update_output_files, update_output_wrote, update_output_na_final_bat]
  rcases hfs with hnone | ⟨v, rfl⟩
  · rw [hnone]
    rfl
  · cases v with
    | none => rfl
    | some n =>
      have hb : ((syncFiles (some n)).plain == some (renderToken none)) = false := by
        rw [beq_eq_false_iff_ne]
        simp only [syncFiles, renderToken, ne_eq, Option.some.injEq]
        exact append_pct_ne_na (toString n)
      rw [hb]
      rfl

/-- C3: three consecutive probe failures starting from a reset failure
counter (no intervening success) clear the history entirely and leave both
status files at the absent marker: plain token `"N/A"` and structured
record `(0, is_present := false)` — given that the files are a lockstep
pair written by the monitor itself (or do not exist yet). -/
theorem c3_three_failures_show_absent (s : MonState)
    (h0 : s.na_failure_count = 0) (hfs : FilesSync s.files) :
    (process_probe_result none (process_probe_result none
        (process_probe_result none s))).history = [] ∧
    (process_probe_result none (process_probe_result none
        (process_probe_result none s))).files = syncFiles none := by
  obtain ⟨hist, na, fs⟩ := s
  have hna : na = 0 := h0
  subst hna
  have hfs' : FilesSync fs := hfs
  have s1 : process_probe_result none ⟨hist, 0, fs⟩ = ⟨hist, 1, fs⟩ := rfl
  have s2 : process_probe_result none ⟨hist, 1, fs⟩ = ⟨hist, 2, fs⟩ := rfl
  rw [s1, s2]
  exact ⟨rfl, update_output_na_files fs hfs'⟩

theorem c3_witness :
    (process_probe_result none (process_probe_result none (process_probe_result
        none ⟨[40, 42], 0, syncFiles (some 41)⟩))).history = [] ∧
    (process_probe_result none (process_probe_result none (process_probe_result
        none ⟨[40, 42], 0, syncFiles (some 41)⟩))).files = syncFiles none :=
  c3_three_failures_show_absent ⟨[40, 42], 0, syncFiles (some 41)⟩ rfl
    (Or.inr ⟨some 41, rfl⟩)

/-! ### Claim theorems: status sink -/

/-- C9: the sink compares the token it is about to write with the persisted
plain content and skips both writes on a match — hence when a second
`update_output` call computes the same displayed value as the previous one,
it performs no write at all and both files stay exactly as they were. -/
theorem c9_second_identical_publish_is_noop (bat1 bat2 : Option Int)
    (h1 : List Int) (fs : Files) (r1 r2 : UOResult)
    (e1 : r1 = update_output bat1 h1 fs MAX_HISTORY)
    (e2 : r2 = update_output bat2 r1.history r1.files MAX_HISTORY)
    (heq : r2.final_bat = r1.final_bat) :
    r2.wrote = false ∧ r2.files = r1.files := by
  have hplain : r1.files.plain = some (renderToken r1.final_bat) := by
    rw [e1]
    exact update_output_plain _ _ _ _
  have heq' : (update_output bat2 r1.history r1.files MAX_HISTORY).final_bat
      = r1.final_bat := by
    rw [← e2]
    exact heq
  have hw : r2.wrote = false := by
    rw [e2, update_output_wrote, heq', hplain]
    simp
  refine ⟨hw, ?_⟩
  rw [e2, update_output_files, ← e2, hw]
  simp

theorem c9_witness :
    (⟨[40], some 40, false, ⟨some "40%", some (40, true)⟩⟩ : UOResult).wrote
        = false ∧
    (⟨[40], some 40, false, ⟨some "40%", some (40, true)⟩⟩ : UOResult).files =
      (⟨[40], some 40, true, ⟨some "40%", some (40, true)⟩⟩ : UOResult).files :=
  c9_second_identical_publish_is_noop (some 40) none [] ⟨none, none⟩
    ⟨[40], some 40, true, ⟨some "40%", some (40, true)⟩⟩
    ⟨[40], some 40, false, ⟨some "40%", some (40, true)⟩⟩
    (by decide) (by decide) rfl

/-! ### Claim theorems: percentage ranges -/

set_option maxRecDepth 8000 in
/-- Bounds of the unclamped scaling over every possible raw sensor byte:
values range over [-25, 102] and land in [0, 100] exactly for raw bytes in
[49, 251]. -/
lemma scale_raw_bounds :
    ∀ r : Fin 256, (-25 ≤ scale_raw r ∧ scale_raw r ≤ 102) ∧
      ((0 ≤ scale_raw r ∧ scale_raw r ≤ 100) ↔
        (49 ≤ (r : Nat) ∧ (r : Nat) ≤ 251)) := by
  decide

/-- The half-even rounding of `s / n` stays in [0, 100] when `s` does
(relative to `n`). -/
lemma roundHalfEven_nonneg_le (s : Int) (n : Nat) (hn : 0 < n)
    (h0 : 0 ≤ s) (h100 : s ≤ 100 * n) :
    0 ≤ roundHalfEven s n ∧ roundHalfEven s n ≤ 100 := by
  have hnn : (0 : Int) ≤ (n : Int) := Int.natCast_nonneg n
  have hpos : (0 : Int) < (n : Int) := by exact_mod_cast hn
  have hq0 : 0 ≤ s / (n : Int) := Int.ediv_nonneg h0 hnn
  have hq100 : s / (n : Int) < 101 := by
    rw [Int.ediv_lt_iff_lt_mul hpos]
    omega
  have hr0 : 0 ≤ s % (n : Int) := Int.emod_nonneg s (by exact_mod_cast hn.ne')
  have hde : (n : Int) * (s / (n : Int)) + s % (n : Int) = s :=
    Int.ediv_add_emod s n
  unfold roundHalfEven
  dsimp only
  rw [Int.fdiv_eq_ediv s hnn, Int.fmod_eq_emod s hnn]
  revert hq0 hq100 hr0 hde
  generalize s / (n : Int) = q
  generalize s % (n : Int) = r
  intro hq0 hq100 hr0 hde
  have h99 : ¬ (2 * r < (n : Int)) → q ≤ 99 := by
    intro h2r
    by_cases he : q = 100
    · subst he
      omega
    · clear hde
      omega
  clear hde
  split
  · exact ⟨hq0, by omega⟩
  · next h2r =>
    have h99' := h99 h2r
    split
    · exact ⟨by omega, by omega⟩
    · split
      · exact ⟨hq0, by omega⟩
      · exact ⟨by omega, by omega⟩

/-- Sum bounds for a list of in-range percentages. -/
lemma list_sum_nonneg_bounded (h : List Int)
    (hb : ∀ x ∈ h, 0 ≤ x ∧ x ≤ 100) :
    0 ≤ h.sum ∧ h.sum ≤ 100 * h.length := by
  induction h with
  | nil => simp
  | cons a t ih =>
    have ha := hb a (List.mem_cons_self a t)
    have ht := ih (fun x hx => hb x (List.mem_cons_of_mem a hx))
    simp only [List.sum_cons, List.length_cons]
    push_cast
    omega

/-- The rounded mean of a nonempty history of in-range percentages is an
in-range percentage. -/
lemma roundMean_mem_range (h : List Int) (hne : h ≠ [])
    (hb : ∀ x ∈ h, 0 ≤ x ∧ x ≤ 100) :
    0 ≤ roundMean h ∧ roundMean h ≤ 100 := by
  have hlen : 0 < h.length := List.length_pos.mpr hne
  have hs := list_sum_nonneg_bounded h hb
  exact roundHalfEven_nonneg_le h.sum h.length hlen hs.1 (by exact_mod_cast hs.2)

/-- C8 counterexample: the probe performs no clamping, so raw sensor byte
255 yields `int((255-50)/2) = 102`; ingesting that reading publishes a
structured record with `is_present = true` and percentage 102 — outside
[0, 100]. -/
theorem c8_counterexample :
    scale_raw 255 = 102 ∧
    (process_probe_result (some (scale_raw 255))
        ⟨[], 0, ⟨none, none⟩⟩).files.json = some (102, true) ∧
    ¬ ((102 : Int) ≤ 100) := by
  decide

/-- C8 amended: the displayed percentage (rounded mean) lies in [0, 100]
whenever every history entry does, and an individual probe value lies in
[0, 100] iff its raw byte lies in [49, 251]; over all possible raw bytes
the unclamped scaling only guarantees the range [-25, 102]. -/
theorem c8_percentage_ranges (r : Nat) (h : List Int) (hr : r ≤ 255)
    (hne : h ≠ []) (hb : ∀ x ∈ h, 0 ≤ x ∧ x ≤ 100) :
    ((-25 ≤ scale_raw r ∧ scale_raw r ≤ 102) ∧
      ((0 ≤ scale_raw r ∧ scale_raw r ≤ 100) ↔ (49 ≤ r ∧ r ≤ 251))) ∧
    (0 ≤ roundMean h ∧ roundMean h ≤ 100) := by
  refine ⟨?_, roundMean_mem_range h hne hb⟩
  have hs := scale_raw_bounds ⟨r, by omega⟩
  simpa using hs

theorem c8_witness :
    (((-25 : Int) ≤ scale_raw 49 ∧ scale_raw 49 ≤ 102) ∧
      ((0 ≤ scale_raw 49 ∧ scale_raw 49 ≤ 100) ↔ (49 ≤ 49 ∧ 49 ≤ 251))) ∧
    ((0 : Int) ≤ roundMean [0, 100] ∧ roundMean [0, 100] ≤ 100) :=
  c8_percentage_ranges 49 [0, 100] (by decide) (by decide) (by decide)
